import Mathlib

/-!
Verification development for the session-scoped OAuth token lifecycle and the
MCP tool-invocation retry wrapper of the Gmail and Calendar chat agents
(files gmail_chat_uagent/server.py, gmail_chat_uagent/gmail_chat_proto.py,
gmail_chat_uagent/gmail_chat_agent.py, calendar_chat_uagent/server.py and
calendar_chat_uagent/calendar_chat_proto.py).

The Python code is shallowly embedded: the filesystem is a map from paths to
typed file contents, external effects (the remote MCP transport, the Google
token endpoint, the token-refresh HTTP call, the LLM) are supplied as explicit
outcome parameters, and raised Python exceptions are Except.error values
carrying the str() rendering of the exception.
-/

/-! ## String helpers (Python substring, lower and startswith semantics) -/

/-- Python substring test (the in operator on str), on the character list:
pat is a prefix of some suffix of l. -/
def charsContains (pat : List Char) : List Char → Bool
  | [] => pat.isEmpty
  | c :: rest => pat.isPrefixOf (c :: rest) || charsContains pat rest

/-- Python pat in s. -/
def strContains (s pat : String) : Bool :=
  charsContains pat.data s.data

/-- Python str.lower for the ASCII texts that appear in the sources. -/
def pyLower (s : String) : String :=
  ⟨s.data.map Char.toLower⟩

/-- Python s.startswith(pre). -/
def pyStartsWith (s pre : String) : Bool :=
  pre.data.isPrefixOf s.data

/-- Escaping of one character inside a JSON string literal, as json.dumps
performs it for the characters exercised here (quote and backslash; control
characters do not occur in the modelled error texts). -/
def jsonEscapeChar (c : Char) : String :=
  if c = '"' then "\\\"" else if c = '\\' then "\\\\" else String.singleton c

/-- Character-wise escaping of a JSON string literal body. -/
def jsonEscapeList : List Char → List Char
  | [] => []
  | c :: cs => (jsonEscapeChar c).data ++ jsonEscapeList cs

/-- Body of a JSON string literal for s, following json.dumps. -/
def jsonEscape (s : String) : String :=
  ⟨jsonEscapeList s.data⟩

/-- The exact string json.dumps produces for the dict with keys success
(False) and error (str(e)), as returned by the retry wrappers
_run_gmail_tool and _run_cal_tool on final failure. -/
def failure_json (e : String) : String :=
  "\x7b\"success\": false, \"error\": \"" ++ jsonEscape e ++ "\"\x7d"

/-! ## Token material, filesystem and service clients -/

/-- Token material as written to the per-session oauth_tokens json file by
exchange_code_for_token: the credential bundle of access token, optional
refresh token, token endpoint, client id and secret, and granted scopes. -/
structure TokenInfo where
  token : String
  refresh_token : Option String
  token_uri : String
  client_id : String
  client_secret : String
  scopes : List String
deriving DecidableEq, Repr

/-- Typed file contents: an oauth tokens file, or a Google client-secrets
file (only the fields the embedded code reads). -/
inductive FileVal where
  | tokens (info : TokenInfo)
  | secrets (client_id client_secret auth_uri : String)
deriving DecidableEq, Repr

/-- The filesystem: a map from path to file contents. -/
def FS : Type := String → Option FileVal

/-- Write (create or overwrite) a file. -/
def FS.write (fs : FS) (p : String) (v : FileVal) : FS :=
  fun q => if q = p then some v else fs q

/-- os.remove. -/
def FS.remove (fs : FS) (p : String) : FS :=
  fun q => if q = p then none else fs q

/-- os.path.exists. -/
def FS.pathExists (fs : FS) (p : String) : Bool :=
  (fs p).isSome

/-- An authenticated Google API client as returned by
googleapiclient.discovery.build(api, version, credentials). -/
structure Service where
  api : String
  version : String
  creds : TokenInfo
deriving DecidableEq, Repr

/-- An in-progress OAuth flow, as built by the google_auth_oauthlib
Flow.from_client_secrets_file call: client configuration, scopes and
redirect uri. -/
structure OAuthFlow where
  client_id : String
  client_secret : String
  auth_uri : String
  scopes : List String
  redirect_uri : String
deriving DecidableEq, Repr

/-- Models the external google_auth_oauthlib Flow.from_client_secrets_file:
reads the client secrets json at path and raises FileNotFoundError (here the
error string) when the file is absent or not a secrets file. -/
def from_client_secrets_file (fs : FS) (path : String) (scopes : List String)
    (redirect_uri : String) : Except String OAuthFlow :=
  match fs path with
  | some (.secrets cid csec auri) => .ok ⟨cid, csec, auri, scopes, redirect_uri⟩
  | _ => .error ("No such file or directory: " ++ path)

/-- Models the external flow.authorization_url call: an authorization URL on
the auth endpoint carrying the client configuration, the requested prompt and
the state query parameter; when no state is supplied the library generates a
random one (the generated argument). -/
def OAuthFlow.authorization_url (flow : OAuthFlow) (prompt : String) (state : Option String)
    (generated : String) : String :=
  flow.auth_uri ++ "?response_type=code&client_id=" ++ flow.client_id ++
    "&redirect_uri=" ++ flow.redirect_uri ++
    "&scope=" ++ String.intercalate "%20" flow.scopes ++
    "&prompt=" ++ prompt ++ "&state=" ++ state.getD generated

/-! ## Gmail credential broker (class GmailAuth in gmail_chat_uagent/server.py) -/

/-- SCOPES of the Gmail server. -/
def GMAIL_SCOPES : List String :=
  ["https://www.googleapis.com/auth/gmail.send",
   "https://www.googleapis.com/auth/gmail.readonly",
   "https://www.googleapis.com/auth/gmail.modify"]

/-- Mutable state of a GmailAuth instance: credentials path, tokens path, the
cached service client (field _service) and the in-memory OAuth flow
(field _flow). -/
structure GmailAuth where
  credentials_path : String
  tokens_path : String
  service_cache : Option Service
  flow : Option OAuthFlow
deriving DecidableEq, Repr

/-- GmailAuth.get_oauth_url: raises FileNotFoundError when the client secrets
file is absent, otherwise builds a Flow, stores it on the instance, and
returns the authorization URL with the session id bound as state (when a
session id is given; otherwise the library generates a state value). -/
def GmailAuth.get_oauth_url (auth : GmailAuth) (fs : FS) (generated : String)
    (session_id : Option String) : Except String (String × GmailAuth) :=
  if ¬ fs.pathExists auth.credentials_path then
    .error ("Google OAuth client secrets not found at " ++ auth.credentials_path ++ ".")
  else
    match from_client_secrets_file fs auth.credentials_path GMAIL_SCOPES
        "http://localhost:8080/callback" with
    | .error e => .error e
    | .ok flow =>
        let url :=
          match session_id with
          | some sid => flow.authorization_url "consent" (some sid) generated
          | none => flow.authorization_url "consent" none generated
        .ok (url, { auth with flow := some flow })

/-- GmailAuth.exchange_code_for_token: raises RuntimeError when no flow is in
memory; otherwise exchanges the code at the token endpoint (the
fetch_outcome parameter is what flow.fetch_token and flow.credentials
produce: the resulting token material, or a raised exception), persists the
token material to the tokens file on success, and leaves the filesystem
untouched on failure. -/
def GmailAuth.exchange_code_for_token (auth : GmailAuth) (fs : FS)
    (fetch_outcome : Except String TokenInfo) (auth_code : String) :
    Except String (Bool × FS) :=
  match auth.flow with
  | none => .error "OAuth flow not initialised. Call get_oauth_url first."
  | some _ =>
      match fetch_outcome with
      | .error e => .error e
      | .ok creds => .ok (true, fs.write auth.tokens_path (.tokens creds))

/-- GmailAuth.get_service: returns the cached client when present; raises
RuntimeError when the tokens file is absent; reloads the token material,
refreshes it (expired is the creds.expired clock check, refresh_outcome the
creds.refresh network call yielding a fresh access token) and persists the
refreshed access token in place when expired and a refresh token exists;
otherwise builds the client from the stored material unchanged. -/
def GmailAuth.get_service (auth : GmailAuth) (fs : FS) (expired : Bool)
    (refresh_outcome : Except String String) :
    Except String (Service × GmailAuth × FS) :=
  match auth.service_cache with
  | some srv => .ok (srv, auth, fs)
  | none =>
      match fs auth.tokens_path with
      | none => .error "Not authenticated – run setup_oauth/complete_oauth first."
      | some (.secrets _ _ _) => .error "KeyError: token"
      | some (.tokens info) =>
          if expired ∧ info.refresh_token.isSome then
            match refresh_outcome with
            | .error e => .error e
            | .ok newTok =>
                let info2 := { info with token := newTok }
                let srv : Service := ⟨"gmail", "v1", info2⟩
                .ok (srv, { auth with service_cache := some srv },
                     fs.write auth.tokens_path (.tokens info2))
          else
            let srv : Service := ⟨"gmail", "v1", info⟩
            .ok (srv, { auth with service_cache := some srv }, fs)

/-! ## Tool payloads (the parsed json dicts the mcp tools return) -/

/-- Payload of setup_oauth: success flag, auth_url on success, error text on
failure. -/
structure OauthUrlPayload where
  success : Bool
  auth_url : String
  error : String
deriving DecidableEq, Repr

/-- Payload of complete_oauth and of the action tools: success flag and error
text (empty when the key is absent). -/
structure SimplePayload where
  success : Bool
  error : String
deriving DecidableEq, Repr

/-- Payload of check_auth_status: success flag, authenticated flag, error
text (the scopes list of the Gmail variant is not modelled). -/
structure AuthStatusPayload where
  success : Bool
  authenticated : Bool
  error : String
deriving DecidableEq, Repr

/-- mcp tool setup_oauth (Gmail server): wraps get_oauth_url, converting a
raised exception into a failure payload. -/
def gmail_setup_oauth (auth : GmailAuth) (fs : FS) (generated : String)
    (session_id : Option String) : OauthUrlPayload × GmailAuth :=
  match auth.get_oauth_url fs generated session_id with
  | .ok (url, auth2) => (⟨true, url, ""⟩, auth2)
  | .error e => (⟨false, "", e⟩, auth)

/-- mcp tool complete_oauth (Gmail server): wraps exchange_code_for_token,
converting a raised exception into a failure payload and leaving the
filesystem unchanged in that case. -/
def gmail_complete_oauth (auth : GmailAuth) (fs : FS)
    (fetch_outcome : Except String TokenInfo) (auth_code : String) :
    SimplePayload × FS :=
  match auth.exchange_code_for_token fs fetch_outcome auth_code with
  | .ok (_, fs2) => (⟨true, ""⟩, fs2)
  | .error e => (⟨false, e⟩, fs)

/-- mcp tool check_auth_status (Gmail server): when the tokens file exists it
additionally exercises get_service as a refresh check and reports failure
when that raises; when no tokens file exists it reports success with
authenticated false. -/
def gmail_check_auth_status (auth : GmailAuth) (fs : FS) (expired : Bool)
    (refresh_outcome : Except String String) :
    AuthStatusPayload × GmailAuth × FS :=
  if fs.pathExists auth.tokens_path then
    match auth.get_service fs expired refresh_outcome with
    | .ok (_, auth2, fs2) => (⟨true, true, ""⟩, auth2, fs2)
    | .error e => (⟨false, false, e⟩, auth, fs)
  else
    (⟨true, false, ""⟩, auth, fs)

/-- Result of the send_email tool: the payload, whether the remote Gmail API
call was actually executed, and the resulting broker and filesystem state. -/
structure SendEmailOutcome where
  payload : SimplePayload
  api_called : Bool
  auth : GmailAuth
  fs : FS

/-- mcp tool send_email (representative credential-requiring Gmail action
tool): resolves credentials through get_service and only then executes the
remote API call (api_outcome: the returned message id, or a raised
exception); a get_service exception is converted into a failure payload with
no API call made. -/
def send_email (auth : GmailAuth) (fs : FS) (expired : Bool)
    (refresh_outcome : Except String String) (api_outcome : Except String String)
    (to_addr subject body : String) : SendEmailOutcome :=
  match auth.get_service fs expired refresh_outcome with
  | .error e => ⟨⟨false, e⟩, false, auth, fs⟩
  | .ok (_, auth2, fs2) =>
      match api_outcome with
      | .ok _ => ⟨⟨true, ""⟩, true, auth2, fs2⟩
      | .error e => ⟨⟨false, e⟩, true, auth2, fs2⟩

/-! ## Calendar credential broker (class CalendarAuth in calendar_chat_uagent/server.py) -/

/-- SCOPES of the Calendar server. -/
def CAL_SCOPES : List String :=
  ["https://www.googleapis.com/auth/calendar",
   "https://www.googleapis.com/auth/calendar.events",
   "https://www.googleapis.com/auth/calendar.readonly",
   "https://www.googleapis.com/auth/calendar.settings.readonly"]

/-- Mutable state of the CalendarAuth instance. -/
structure CalendarAuth where
  credentials_path : String
  tokens_path : String
  service_cache : Option Service
  flow : Option OAuthFlow
deriving DecidableEq, Repr

/-- CalendarAuth.get_oauth_url: no explicit existence check; the library call
from_client_secrets_file itself raises when the secrets file is absent. The
session id (possibly None) is passed through as the state parameter. -/
def CalendarAuth.get_oauth_url (auth : CalendarAuth) (fs : FS) (generated : String)
    (session_id : Option String) : Except String (String × CalendarAuth) :=
  match from_client_secrets_file fs auth.credentials_path CAL_SCOPES
      "http://localhost:8080/callback" with
  | .error e => .error e
  | .ok flow =>
      .ok (flow.authorization_url "consent" session_id generated,
           { auth with flow := some flow })

/-- CalendarAuth.exchange_code_for_token: same pattern as the Gmail broker. -/
def CalendarAuth.exchange_code_for_token (auth : CalendarAuth) (fs : FS)
    (fetch_outcome : Except String TokenInfo) (auth_code : String) :
    Except String FS :=
  match auth.flow with
  | none => .error "OAuth flow not initialised. Call get_oauth_url first."
  | some _ =>
      match fetch_outcome with
      | .error e => .error e
      | .ok creds => .ok (fs.write auth.tokens_path (.tokens creds))

/-- CalendarAuth.service: same shape as GmailAuth.get_service with the
calendar api and its own RuntimeError text. -/
def CalendarAuth.service (auth : CalendarAuth) (fs : FS) (expired : Bool)
    (refresh_outcome : Except String String) :
    Except String (Service × CalendarAuth × FS) :=
  match auth.service_cache with
  | some srv => .ok (srv, auth, fs)
  | none =>
      match fs auth.tokens_path with
      | none => .error "Not authenticated – run setup_oauth first."
      | some (.secrets _ _ _) => .error "KeyError: token"
      | some (.tokens info) =>
          if expired ∧ info.refresh_token.isSome then
            match refresh_outcome with
            | .error e => .error e
            | .ok newTok =>
                let info2 := { info with token := newTok }
                let srv : Service := ⟨"calendar", "v3", info2⟩
                .ok (srv, { auth with service_cache := some srv },
                     fs.write auth.tokens_path (.tokens info2))
          else
            let srv : Service := ⟨"calendar", "v3", info⟩
            .ok (srv, { auth with service_cache := some srv }, fs)

/-- mcp tool check_auth_status (Calendar server): reports success
unconditionally, with authenticated exactly the on-disk existence of the
tokens file; the token material is never read. -/
def cal_check_auth_status (auth : CalendarAuth) (fs : FS) : AuthStatusPayload :=
  ⟨true, fs.pathExists auth.tokens_path, ""⟩

/-! ## Tool invoker (_run_gmail_tool and _run_cal_tool retry wrappers) -/

/-- A value returned by the FastMCP _mcp_call_tool call, as far as the
normaliser _unwrap inspects it: a nonempty tuple (with its str rendering for
the fall-through case), an object with a text attribute, a nonempty list
whose first element has a text attribute, a dict or list (with its
json.dumps rendering), or anything else (with its str rendering). -/
inductive PyVal where
  | pytuple (first : PyVal) (str_repr : String)
  | textBlock (text : String)
  | blockList (text : String)
  | jsonLike (dump : String)
  | pyother (str_repr : String)
deriving DecidableEq, Repr

/-- The checks of _unwrap after the initial tuple unwrapping: text attribute,
list of text blocks, dict or list, else str(). A tuple reaching this point
matches none of those checks and falls through to str(). -/
def unwrapStep : PyVal → String
  | .pytuple _ r => r
  | .textBlock t => t
  | .blockList t => t
  | .jsonLike d => d
  | .pyother r => r

/-- _unwrap (duplicated identically in gmail_chat_proto.py and
calendar_chat_proto.py): a nonempty tuple is replaced by its first element,
then the result is normalised to a plain string. -/
def unwrap_result : PyVal → String
  | .pytuple v _ => unwrapStep v
  | v => unwrapStep v

/-- The per-session context record the wrappers read from the
CURRENT_SESSION_DATA context variable: the keys tokens_path and token_json. -/
structure SessionCtx where
  tokens_path : Option String
  token_json : Option TokenInfo
deriving DecidableEq, Repr

/-- Environment of one wrapper invocation: the outcome of each
_mcp_call_tool attempt (attempt n raises the exception whose str() is the
error, or returns a PyVal), and the uuid4 hex used for a temporary token
file name. -/
structure InvokeEnv where
  attempts : Nat → Except String PyVal
  fresh_name : String

/-- Result of one wrapper invocation: the returned string, the updated
session context, broker state and filesystem, the number of remote attempts
made and the sleeps (in milliseconds) performed between them. -/
structure InvokeOut where
  output : String
  ctx : SessionCtx
  gmail_auth : GmailAuth
  fs : FS
  calls : Nat
  sleeps : List Nat

/-- The temp-file cleanup repeated on every exit path of the wrappers:
remove the token file if this call created it and it still exists. -/
def cleanupTemp (temp_created : Bool) (tokens_path : Option String) (fs : FS) : FS :=
  if temp_created then
    match tokens_path with
    | some p => if fs.pathExists p then fs.remove p else fs
    | none => fs
  else fs

/-- The retry loop shared by _run_gmail_tool and _run_cal_tool: one initial
attempt and, after a fixed 0.5 second sleep, exactly one retry; the second
failure is converted into the json failure payload instead of propagating.
The sleeps field records each asyncio.sleep in milliseconds. -/
def toolRetryLoop (env : InvokeEnv) (temp_created : Bool)
    (tokens_path : Option String) (ctx : SessionCtx) (auth : GmailAuth)
    (fs : FS) : Except String InvokeOut :=
  match env.attempts 0 with
  | .ok r => .ok ⟨unwrap_result r, ctx, auth, cleanupTemp temp_created tokens_path fs, 1, []⟩
  | .error _ =>
      match env.attempts 1 with
      | .ok r => .ok ⟨unwrap_result r, ctx, auth, cleanupTemp temp_created tokens_path fs, 2, [500]⟩
      | .error e1 =>
          .ok ⟨failure_json e1, ctx, auth, cleanupTemp temp_created tokens_path fs, 2, [500]⟩

/-- _run_gmail_tool (gmail_chat_proto.py): if only in-memory token json is
available (no token file on disk), recreate the file under a fresh name in
the tokens directory; repoint the shared gmail_auth at the session token
file (resetting the cached service client) when it differs; then run the
retry loop. The fn and args pair is the Tool Call; args is not inspected by
the wrapper. -/
def run_gmail_tool (fn : String) (args : List (String × String)) (env : InvokeEnv)
    (ctx : SessionCtx) (auth : GmailAuth) (fs : FS) : Except String InvokeOut :=
  let needTemp :=
    match ctx.token_json, ctx.tokens_path with
    | some _, none => true
    | some _, some p => ¬ fs.pathExists p
    | none, _ => false
  let tokens_path :=
    if needTemp then
      some (ctx.tokens_path.getD (".tokens/oauth_tokens_" ++ env.fresh_name ++ ".json"))
    else ctx.tokens_path
  let fs :=
    if needTemp then
      match tokens_path, ctx.token_json with
      | some p, some tj => fs.write p (.tokens tj)
      | _, _ => fs
    else fs
  let ctx := if needTemp then { ctx with tokens_path := tokens_path } else ctx
  let auth :=
    match tokens_path with
    | some p => if auth.tokens_path ≠ p then { auth with tokens_path := p, service_cache := none } else auth
    | none => auth
  toolRetryLoop env needTemp tokens_path ctx auth fs

/-- Result record of _run_cal_tool, carrying CalendarAuth instead. -/
structure CalInvokeOut where
  output : String
  ctx : SessionCtx
  cal_auth : CalendarAuth
  fs : FS
  calls : Nat
  sleeps : List Nat

/-- The same retry loop for the calendar wrapper. -/
def calToolRetryLoop (env : InvokeEnv) (temp_created : Bool)
    (tokens_path : Option String) (ctx : SessionCtx) (auth : CalendarAuth)
    (fs : FS) : Except String CalInvokeOut :=
  match env.attempts 0 with
  | .ok r => .ok ⟨unwrap_result r, ctx, auth, cleanupTemp temp_created tokens_path fs, 1, []⟩
  | .error _ =>
      match env.attempts 1 with
      | .ok r => .ok ⟨unwrap_result r, ctx, auth, cleanupTemp temp_created tokens_path fs, 2, [500]⟩
      | .error e1 =>
          .ok ⟨failure_json e1, ctx, auth, cleanupTemp temp_created tokens_path fs, 2, [500]⟩

/-- The token-file preamble of _run_cal_tool: when a token file already
exists repoint cal_auth at it (when it differs); otherwise, when only
in-memory token json is available, write a temporary token file and repoint
cal_auth unconditionally. Returns the temp_created flag, the effective
tokens path, and the updated context, broker and filesystem. -/
def calToolPreamble (env : InvokeEnv) (ctx : SessionCtx) (auth : CalendarAuth)
    (fs : FS) : Bool × Option String × SessionCtx × CalendarAuth × FS :=
  match ctx.tokens_path with
  | some p =>
      if fs.pathExists p then
        let auth := if auth.tokens_path ≠ p then { auth with tokens_path := p, service_cache := none } else auth
        (false, some p, ctx, auth, fs)
      else
        match ctx.token_json with
        | some tj =>
            let path := p
            let fs := fs.write path (.tokens tj)
            let ctx := { ctx with tokens_path := some path }
            let auth := { auth with tokens_path := path, service_cache := none }
            (true, some path, ctx, auth, fs)
        | none => (false, some p, ctx, auth, fs)
  | none =>
      match ctx.token_json with
      | some tj =>
          let path := ".tokens/oauth_tokens_" ++ env.fresh_name ++ ".json"
          let fs := fs.write path (.tokens tj)
          let ctx := { ctx with tokens_path := some path }
          let auth := { auth with tokens_path := path, service_cache := none }
          (true, some path, ctx, auth, fs)
      | none => (false, none, ctx, auth, fs)

/-- _run_cal_tool (calendar_chat_proto.py): the token-file preamble followed
by the same single-retry loop as the Gmail wrapper. -/
def run_cal_tool (fn : String) (args : List (String × String)) (env : InvokeEnv)
    (ctx : SessionCtx) (auth : CalendarAuth) (fs : FS) : Except String CalInvokeOut :=
  let pre := calToolPreamble env ctx auth fs
  calToolRetryLoop env pre.1 pre.2.1 pre.2.2.1 pre.2.2.2.1 pre.2.2.2.2

/-! ## Conversational routers (handle_chat_message and _handle)

The routers call tools via _run_gmail_tool / _run_cal_tool and immediately
json.loads the returned string. At this layer the model treats each tool
invocation abstractly through its parsed payload, supplied by an environment
record (the wrapper itself is modelled separately above); a transport failure
surfaces as a payload whose authenticated or success field is false, exactly
as the falsy dict.get lookups of the Python code see it. Each invocation is
recorded in a dispatch trace together with the value of the session
authentication flag at the moment of dispatch. -/

/-- One dispatched Tool Call: tool name and the session authentication flag
at dispatch time (the argument map is not inspected by the routing logic). -/
structure Dispatch where
  tool : String
  auth_flag : Bool
deriving DecidableEq, Repr

/-- One entry of the per-session message history (keys source and content). -/
structure ChatMsg where
  source : String
  content : String
deriving DecidableEq, Repr

/-- An inbound chat message: sender address, its text blocks, and whether a
StartSessionContent block is present. -/
structure Inbound where
  sender : String
  texts : List String
  start_session : Bool
deriving DecidableEq, Repr

/-- The per-session record the Gmail router keeps in ctx.storage. Missing
dict keys are the false and none defaults (only their truthiness is ever
read). The key state is modelled as oauth_state. -/
structure GmailSession where
  messages : List ChatMsg
  sender_address : Option String
  gmail_authenticated : Bool
  awaiting_auth_code : Bool
  oauth_link_sent : Bool
  tokens_path : Option String
  token_json : Option TokenInfo
  auth_code : Option String
  oauth_state : Option String
deriving DecidableEq, Repr

/-- A session fresh out of sessions.get(session_id, dict with empty
messages), or reset by StartSessionContent. -/
def GmailSession.fresh : GmailSession :=
  ⟨[], none, false, false, false, none, none, none, none⟩

/-- Environment of one Gmail router step: whether gmail_auth still holds its
in-memory flow, the parsed payloads of the tool invocations the step may
perform, the token json the successful complete_oauth left on disk, and the
behaviour of the OpenAI responses loop (the tools it has executed and its
final reply; the leaked tool_calls fallback re-parsing is folded into the
same list, as it dispatches through the same wrapper). -/
structure GmailEnv where
  flow_present : Bool
  check_status : AuthStatusPayload
  complete : SimplePayload
  token_written : TokenInfo
  setup : OauthUrlPayload
  llm_calls : List String
  llm_reply : String

/-- Result of one Gmail router step: the stored session record, the chat
replies sent, and the dispatch trace. -/
structure GmailRouterOut where
  data : GmailSession
  replies : List String
  trace : List Dispatch

/-- The tokens directory default of os.getenv GMAIL_TOKENS_DIR. -/
def TOKENS_DIR : String := ".tokens"

/-- MAX_HISTORY default (10); the history is trimmed at twice this. -/
def MAX_HISTORY : Nat := 10

/-- The text preceding the URL in the Gmail authorization-link reply. -/
def gmailAuthLinkPre : String :=
  "Click the **Authorize Gmail** link below.\nA browser tab will open – sign in & grant access.\nOnce authorised, please send me your query.\n\n[Authorize Gmail]("

/-- The authorization-link reply of the Gmail router. -/
def gmailAuthLinkReply (auth_url : String) : String :=
  gmailAuthLinkPre ++ auth_url ++ ")"

/-- The reminder the Gmail router sends while an authorisation is pending. -/
def gmailWaitingReminder : String :=
  "⚠️ I\x27m still waiting for the Google authorisation to complete. Please click the Authorise Gmail link I sent above and grant access."

/-- The success reply after complete_oauth. -/
def gmailAuthSuccessReply : String :=
  "✅ Authentication successful! You can now ask me to read, send or manage your Gmail messages."

/-- The not-authenticated part of handle_chat_message (gmail_chat_proto.py
lines 438 to 554): duplicate-send guard, auth-code detection by the 4/
shape, complete_oauth on a code, reminder while awaiting, and setup_oauth
with state binding otherwise. -/
def gmailUnauthStep (env : GmailEnv) (sid : String) (data : GmailSession)
    (inbound : List String) (trace0 : List Dispatch) : GmailRouterOut :=
  if data.oauth_link_sent ∧ ¬ data.awaiting_auth_code then
    ⟨data, [], trace0⟩
  else
    let auth_code : Option String :=
      if data.awaiting_auth_code ∧ inbound ≠ [] then
        let possible := inbound.headD ""
        if pyStartsWith possible "4/" then some possible else none
      else none
    match auth_code with
    | some code =>
        let tpath := TOKENS_DIR ++ "/oauth_tokens_" ++ sid ++ ".json"
        let data := { data with tokens_path := some tpath, auth_code := some code }
        let tr := trace0 ++ [⟨"complete_oauth", data.gmail_authenticated⟩]
        if env.complete.success then
          let data := { data with gmail_authenticated := true, awaiting_auth_code := false, oauth_link_sent := false, token_json := some env.token_written }
          ⟨data, [gmailAuthSuccessReply], tr⟩
        else
          let data := { data with awaiting_auth_code := false }
          ⟨data, ["❌ Authentication failed: " ++ env.complete.error ++ ". Please try again."], tr⟩
    | none =>
        if data.awaiting_auth_code then
          ⟨data, [gmailWaitingReminder], trace0⟩
        else
          let tr := trace0 ++ [⟨"setup_oauth", data.gmail_authenticated⟩]
          if ¬ env.setup.success then
            ⟨data, ["❌ Authentication setup failed: " ++ env.setup.error], tr⟩
          else
            let raw := env.setup.auth_url
            let auth_url :=
              if strContains raw "state=" then raw
              else raw ++ (if strContains raw "?" then "&" else "?") ++ "state=" ++ sid
            let data := { data with oauth_state := some sid, awaiting_auth_code := true, oauth_link_sent := true }
            ⟨data, [gmailAuthLinkReply auth_url], tr⟩

/-- The auth-revalidation step of the Gmail router (lines 414 to 427): an
authenticated session dispatches check_auth_status and drops its flag when
the check does not confirm it; an unauthenticated session skips the check. -/
def gmailAuthCheck (env : GmailEnv) (data : GmailSession) : GmailSession × List Dispatch :=
  if data.gmail_authenticated then
    if ¬ env.check_status.authenticated then
      ({ data with gmail_authenticated := false }, [⟨"check_auth_status", data.gmail_authenticated⟩])
    else (data, [⟨"check_auth_status", data.gmail_authenticated⟩])
  else (data, [])

/-- handle_chat_message (gmail_chat_proto.py): sender bookkeeping, the
StartSessionContent reset, the empty-input shortcut, the stale
awaiting_auth_code reset when the in-memory flow was lost, revalidation of
an authenticated session through check_auth_status, then either the
authentication workflow or the OpenAI responses loop over the history. -/
def gmailHandle (env : GmailEnv) (sid : String) (data0 : GmailSession)
    (msg : Inbound) : GmailRouterOut :=
  let data := { data0 with sender_address := some msg.sender }
  let data := if msg.start_session then GmailSession.fresh else data
  let inbound := if msg.start_session then [] else msg.texts
  if inbound = [] ∧ ¬ data.awaiting_auth_code then
    ⟨data, [], []⟩
  else
    let data :=
      if data.awaiting_auth_code ∧ ¬ env.flow_present then
        { data with awaiting_auth_code := false, oauth_link_sent := false }
      else data
    let checked := gmailAuthCheck env data
    let data := checked.1
    let trace0 := checked.2
    if ¬ data.gmail_authenticated then
      gmailUnauthStep env sid data inbound trace0
    else
      let data :=
        if inbound ≠ [] then
          { data with messages := data.messages ++ [⟨"human", String.intercalate "\n" inbound⟩] }
        else data
      let data :=
        if data.messages.length > MAX_HISTORY * 2 then
          { data with messages := data.messages.drop (data.messages.length - MAX_HISTORY * 2) }
        else data
      let llmTrace := env.llm_calls.map (fun n => (⟨n, data.gmail_authenticated⟩ : Dispatch))
      let data := { data with messages := data.messages ++ [⟨"assistant", env.llm_reply⟩] }
      ⟨data, [env.llm_reply], trace0 ++ llmTrace⟩

/-- The per-session record of the Calendar router. -/
structure CalSession where
  messages : List ChatMsg
  sender_address : Option String
  cal_authenticated : Bool
  awaiting_auth_code : Bool
  oauth_link_sent : Bool
  tokens_path : Option String
  token_json : Option TokenInfo
deriving DecidableEq, Repr

/-- A fresh or reset Calendar session. -/
def CalSession.fresh : CalSession :=
  ⟨[], none, false, false, false, none, none⟩

/-- Environment of one Calendar router step. -/
structure CalEnv where
  check_status : AuthStatusPayload
  setup : OauthUrlPayload
  llm_calls : List String
  llm_reply : String

/-- Result of one Calendar router step. -/
structure CalRouterOut where
  data : CalSession
  replies : List String
  trace : List Dispatch

/-- The text preceding the URL in the Calendar authorization-link reply. -/
def calAuthLinkPre : String :=
  "Click the **Authorize Calendar** link below.\n\n[Authorize Calendar]("

/-- The text following the URL in the Calendar authorization-link reply. -/
def calAuthLinkSuf : String :=
  ")\n\nOnce authorised, paste the code here or just ask your question again."

/-- The authorization-link reply of the Calendar router. -/
def calAuthLinkReply (auth_url : String) : String :=
  calAuthLinkPre ++ auth_url ++ calAuthLinkSuf

/-- The reminder the Calendar router sends while an authorisation is pending. -/
def calWaitingReminder : String :=
  "🔄 Still waiting for you to grant access in the browser popup. Once finished, just ask me your question again."

/-- _looks_like_oauth_prompt (calendar_chat_proto.py), with the Python
operator precedence and-before-or. -/
def looks_like_oauth_prompt (text : String) : Bool :=
  let t := pyLower text
  (strContains t "authorize" && strContains t "calendar") || strContains t "authentication"

/-- The auth-revalidation step of the Calendar router. -/
def calAuthCheck (env : CalEnv) (data : CalSession) : CalSession × List Dispatch :=
  if data.cal_authenticated then
    if ¬ env.check_status.authenticated then
      ({ data with cal_authenticated := false }, [⟨"check_auth_status", data.cal_authenticated⟩])
    else (data, [⟨"check_auth_status", data.cal_authenticated⟩])
  else (data, [])

/-- _handle (calendar_chat_proto.py): sender bookkeeping, the
StartSessionContent reset, the empty-input shortcut, revalidation of an
authenticated session through check_auth_status, then the authentication
workflow (which never parses a pasted code: while awaiting it only sends a
reminder when there is inbound text) or the OpenAI responses loop after
filtering old oauth prompts out of the history. -/
def calHandle (env : CalEnv) (sid : String) (data0 : CalSession)
    (msg : Inbound) : CalRouterOut :=
  let data := { data0 with sender_address := some msg.sender }
  let data := if msg.start_session then CalSession.fresh else data
  let inbound := if msg.start_session then [] else msg.texts
  if inbound = [] ∧ ¬ data.awaiting_auth_code then
    ⟨data, [], []⟩
  else
    let checked := calAuthCheck env data
    let data := checked.1
    let trace0 := checked.2
    if ¬ data.cal_authenticated then
      if data.oauth_link_sent ∧ ¬ data.awaiting_auth_code then
        ⟨data, [], trace0⟩
      else if data.awaiting_auth_code then
        ⟨data, if inbound ≠ [] then [calWaitingReminder] else [], trace0⟩
      else
        let tr := trace0 ++ [⟨"setup_oauth", data.cal_authenticated⟩]
        if ¬ env.setup.success then
          ⟨data, ["❌ Authentication setup failed: " ++ env.setup.error], tr⟩
        else
          let data := { data with awaiting_auth_code := true, oauth_link_sent := true }
          ⟨data, [calAuthLinkReply env.setup.auth_url], tr⟩
    else
      let keep := fun (m : ChatMsg) => ¬ (m.source = "assistant" ∧ looks_like_oauth_prompt m.content)
      let data := { data with messages := data.messages.filter keep }
      let data :=
        if inbound ≠ [] then
          { data with messages := data.messages ++ [⟨"human", String.intercalate "\n" inbound⟩] }
        else data
      let data :=
        if data.messages.length > MAX_HISTORY * 2 then
          { data with messages := data.messages.drop (data.messages.length - MAX_HISTORY * 2) }
        else data
      let llmTrace := env.llm_calls.map (fun n => (⟨n, data.cal_authenticated⟩ : Dispatch))
      let data := { data with messages := data.messages ++ [⟨"assistant", env.llm_reply⟩] }
      ⟨data, [env.llm_reply], trace0 ++ llmTrace⟩

/-! ## REST OAuth callback (_handle_oauth in gmail_chat_agent.py) -/

/-- The session store: sessions.get with the default record of an empty
message list baked in. -/
def GmailStore : Type := String → GmailSession

/-- sessions assignment followed by ctx.storage.set. -/
def storeSet (st : GmailStore) (sid : String) (d : GmailSession) : GmailStore :=
  fun x => if x = sid then d else st x

/-- Environment of one REST callback invocation: the parsed payloads of the
first complete_oauth, the setup_oauth retry, and the second complete_oauth,
plus the token json read back from disk on success. -/
structure RestEnv where
  complete1 : SimplePayload
  setup_retry : OauthUrlPayload
  complete2 : SimplePayload
  token_on_disk : Option TokenInfo

/-- Result of one REST callback invocation: the OAuthResponse fields, the
updated store, and the dispatch trace. -/
structure RestOut where
  resp_success : Bool
  resp_message : String
  store : GmailStore
  trace : List Dispatch

/-- _handle_oauth (gmail_chat_agent.py): a duplicate callback for an already
authenticated session is answered with Already authenticated and ignored;
otherwise complete_oauth runs, with one setup_oauth plus retry when the
error names the lost flow; failure is reported without storing the session;
success stores the token json and marks the session authenticated. -/
def handle_oauth (env : RestEnv) (store : GmailStore) (session_id auth_code : String) :
    RestOut :=
  let data := store session_id
  if data.gmail_authenticated then
    ⟨true, "Already authenticated", store, []⟩
  else
    let tpath := TOKENS_DIR ++ "/oauth_tokens_" ++ session_id ++ ".json"
    let data := { data with tokens_path := some tpath, auth_code := some auth_code }
    let tr : List Dispatch := [⟨"complete_oauth", data.gmail_authenticated⟩]
    let retried : SimplePayload × List Dispatch :=
      if ¬ env.complete1.success ∧ strContains (pyLower env.complete1.error) "flow not initialised" then
        (env.complete2, tr ++ [⟨"setup_oauth", false⟩, ⟨"complete_oauth", false⟩])
      else (env.complete1, tr)
    let res := retried.1
    let tr := retried.2
    if ¬ res.success then
      ⟨false, res.error, store, tr⟩
    else
      let data := { data with token_json := env.token_on_disk, gmail_authenticated := true, awaiting_auth_code := false, oauth_link_sent := false }
      ⟨true, "OAuth completed and tokens stored", storeSet store session_id data, tr⟩

/-! ## Concrete test fixtures -/

/-- The empty filesystem. -/
def emptyFS : FS := fun _ => none

/-- A sample token bundle with a refresh token. -/
def cTokenInfo : TokenInfo :=
  ⟨"tok0", some "refresh0", "https://oauth2.googleapis.com/token", "cid", "csec", GMAIL_SCOPES⟩

/-- A sample token bundle without a refresh token. -/
def cTokenInfoNoRefresh : TokenInfo := { cTokenInfo with refresh_token := none }

/-- A sample cached Gmail service client. -/
def cService : Service := ⟨"gmail", "v1", cTokenInfo⟩

/-- A sample flow built from the sample secrets. -/
def cFlow : OAuthFlow :=
  ⟨"cid", "csec", "https://accounts.google.com/o/oauth2/auth", GMAIL_SCOPES,
   "http://localhost:8080/callback"⟩

/-- A Gmail broker with no cached client and no flow. -/
def cGmailAuth : GmailAuth := ⟨"cred.json", "tok.json", none, none⟩

/-- The same broker with a cached service client. -/
def cGmailAuthCached : GmailAuth := { cGmailAuth with service_cache := some cService }

/-- The same broker with an in-memory flow. -/
def cGmailAuthFlow : GmailAuth := { cGmailAuth with flow := some cFlow }

/-- Filesystem holding the sample refreshable token file. -/
def cFsTokens : FS := emptyFS.write "tok.json" (.tokens cTokenInfo)

/-- Filesystem holding the sample token file without refresh token. -/
def cFsTokensNoRefresh : FS := emptyFS.write "tok.json" (.tokens cTokenInfoNoRefresh)

/-- Filesystem holding the sample client secrets file. -/
def cFsSecrets : FS :=
  emptyFS.write "cred.json" (.secrets "cid" "csec" "https://accounts.google.com/o/oauth2/auth")

/-- A Calendar broker with no cached client and no flow. -/
def cCalAuth : CalendarAuth := ⟨"calendar_client_secret.json", "oauth_tokens.json", none, none⟩

/-- An invoker environment whose remote attempts all raise exceptions whose
str() is empty (such as Exception() without arguments). -/
def cEnvFailEmpty : InvokeEnv := ⟨fun _ => .error "", "uuid0"⟩

/-- An invoker environment that raises once and then returns a text block. -/
def cEnvFailOnce : InvokeEnv :=
  ⟨fun n => if n = 0 then .error "boom" else .ok (.textBlock "ok-result"), "uuid0"⟩

/-- A session context with neither token path nor token json. -/
def cCtxEmpty : SessionCtx := ⟨none, none⟩

/-- A Gmail router environment for a successful setup_oauth. -/
def cSetupOkEnv : GmailEnv :=
  ⟨true, ⟨true, true, ""⟩, ⟨true, ""⟩, cTokenInfo, ⟨true, "https://auth.example/a1", ""⟩, [], "done"⟩

/-- A Gmail router environment whose complete_oauth fails. -/
def cCompleteFailEnv : GmailEnv := { cSetupOkEnv with complete := ⟨false, "invalid_grant"⟩ }

/-- A session in the awaiting-code state of the Gmail router. -/
def cAwaitSession : GmailSession :=
  { GmailSession.fresh with awaiting_auth_code := true, oauth_link_sent := true }

/-- A Calendar router environment for a successful setup_oauth. -/
def cCalSetupOkEnv : CalEnv :=
  ⟨⟨true, true, ""⟩, ⟨true, "https://auth.example/a1", ""⟩, [], "done"⟩

/-- A session in the awaiting-code state of the Calendar router. -/
def cCalAwaitSession : CalSession :=
  { CalSession.fresh with awaiting_auth_code := true, oauth_link_sent := true }

/-- A REST callback environment whose complete_oauth succeeds first time. -/
def cRestOkEnv : RestEnv := ⟨⟨true, ""⟩, ⟨true, "https://auth.example/a1", ""⟩, ⟨true, ""⟩, some cTokenInfo⟩

/-- A REST callback environment whose first complete_oauth reports the lost
flow and whose retry succeeds. -/
def cRestFlowLostEnv : RestEnv :=
  ⟨⟨false, "OAuth flow not initialised. Call get_oauth_url first."⟩,
   ⟨true, "https://auth.example/a1", ""⟩, ⟨true, ""⟩, some cTokenInfo⟩

/-- A store with no session yet. -/
def cFreshStore : GmailStore := fun _ => GmailSession.fresh

/-- An invoker environment raising distinct nonempty exception messages on
both attempts. -/
def cEnvFailTwice : InvokeEnv :=
  ⟨fun n => if n = 0 then .error "timeout one" else .error "timeout two", "uuid0"⟩

/-- The authentication-workflow tools: the tool calls that establish or
probe authentication and are legitimately dispatched before the session
flag is set. -/
def auth_flow_tools : List String := ["setup_oauth", "complete_oauth", "check_auth_status"]

/-- A Gmail router environment for an authenticated session whose LLM turn
executes one credentialed tool. -/
def cAuthEnv : GmailEnv := { cSetupOkEnv with llm_calls := ["send_email"] }

/-- An authenticated Gmail session. -/
def cAuthSession : GmailSession := { GmailSession.fresh with gmail_authenticated := true }

/-! ## Theorems -/

/-- Helper: splitting an ampersand off an appended state parameter. -/
theorem append_amp_state (A sid : String) :
    A ++ "&state=" ++ sid = (A ++ "&") ++ "state=" ++ sid := by
  have h : (A ++ "&") ++ "state=" = A ++ "&state=" := by
    rw [String.append_assoc]
    exact rfl
  rw [h]

/-- C10: the Calendar check_auth_status tool never fails: for every broker
and filesystem state it returns success true with authenticated exactly the
on-disk existence of the session token file, independent of the token
material inside; the Gmail variant, by contrast, can report authenticated
false even though the token file exists, because it additionally exercises
get_service (here: an expired refreshable token whose refresh call raises). -/
theorem C10_cal_check_auth_status_total :
    (∀ (auth : CalendarAuth) (fs : FS),
        (cal_check_auth_status auth fs).success = true ∧
        (cal_check_auth_status auth fs).authenticated = (fs auth.tokens_path).isSome) ∧
    (gmail_check_auth_status cGmailAuth cFsTokens true (.error "refresh boom")).1.authenticated = false ∧
    (cFsTokens cGmailAuth.tokens_path).isSome = true := by
  refine ⟨fun auth fs => ⟨rfl, rfl⟩, ?_, ?_⟩ <;> decide

/-- C6: begin_authorization (GmailAuth.get_oauth_url and
CalendarAuth.get_oauth_url) returns, for every session id, an authorization
URL carrying that session id as the OAuth state parameter, and fails with
the missing-client-secrets configuration error when the secrets file is not
present (the Gmail broker checks explicitly; the Calendar broker fails
inside the library call). -/
theorem C6_begin_authorization_contract :
    (∀ (auth : GmailAuth) (fs : FS) (generated sid : String),
       fs auth.credentials_path = none →
       auth.get_oauth_url fs generated (some sid)
         = .error ("Google OAuth client secrets not found at " ++ auth.credentials_path ++ ".")) ∧
    (∀ (auth : GmailAuth) (fs : FS) (generated sid cid csec auri : String),
       fs auth.credentials_path = some (.secrets cid csec auri) →
       ∃ pre auth2, auth.get_oauth_url fs generated (some sid) = .ok (pre ++ "state=" ++ sid, auth2)) ∧
    (∀ (auth : CalendarAuth) (fs : FS) (generated sid : String),
       fs auth.credentials_path = none →
       auth.get_oauth_url fs generated (some sid)
         = .error ("No such file or directory: " ++ auth.credentials_path)) ∧
    (∀ (auth : CalendarAuth) (fs : FS) (generated sid cid csec auri : String),
       fs auth.credentials_path = some (.secrets cid csec auri) →
       ∃ pre auth2, auth.get_oauth_url fs generated (some sid) = .ok (pre ++ "state=" ++ sid, auth2)) := by
  refine ⟨?_, ?_, ?_, ?_⟩
  · intro auth fs generated sid h
    simp [GmailAuth.get_oauth_url, FS.pathExists, h]
  · intro auth fs generated sid cid csec auri h
    refine ⟨auri ++ "?response_type=code&client_id=" ++ cid ++ "&redirect_uri=" ++
      "http://localhost:8080/callback" ++ "&scope=" ++ String.intercalate "%20" GMAIL_SCOPES ++
      "&prompt=" ++ "consent" ++ "&",
      { auth with flow := some ⟨cid, csec, auri, GMAIL_SCOPES, "http://localhost:8080/callback"⟩ }, ?_⟩
    simp only [GmailAuth.get_oauth_url, FS.pathExists, h, Option.isSome_some,
      from_client_secrets_file, OAuthFlow.authorization_url, Option.getD, not_true,
      Bool.not_true, if_false, ite_false]
    rw [append_amp_state]
  · intro auth fs generated sid h
    simp [CalendarAuth.get_oauth_url, from_client_secrets_file, h]
  · intro auth fs generated sid cid csec auri h
    refine ⟨auri ++ "?response_type=code&client_id=" ++ cid ++ "&redirect_uri=" ++
      "http://localhost:8080/callback" ++ "&scope=" ++ String.intercalate "%20" CAL_SCOPES ++
      "&prompt=" ++ "consent" ++ "&",
      { auth with flow := some ⟨cid, csec, auri, CAL_SCOPES, "http://localhost:8080/callback"⟩ }, ?_⟩
    simp only [CalendarAuth.get_oauth_url, from_client_secrets_file, h,
      OAuthFlow.authorization_url, Option.getD]
    rw [append_amp_state]

/-- C6 witness: the contract applied to the concrete secrets fixture and to
the empty filesystem. -/
theorem C6_begin_authorization_witness :
    (GmailAuth.get_oauth_url cGmailAuth emptyFS "gen" (some "s1")
       = .error ("Google OAuth client secrets not found at cred.json.")) ∧
    (∃ pre auth2, GmailAuth.get_oauth_url cGmailAuth cFsSecrets "gen" (some "s1")
       = .ok (pre ++ "state=" ++ "s1", auth2)) :=
  ⟨C6_begin_authorization_contract.1 cGmailAuth emptyFS "gen" "s1" rfl,
   C6_begin_authorization_contract.2.1 cGmailAuth cFsSecrets "gen" "s1" "cid" "csec"
     "https://accounts.google.com/o/oauth2/auth" rfl⟩

/-- C5 counterexample: with a cached service client on the broker,
get_service returns the cache immediately even though the stored token is
expired and carries a refresh token: no refresh is performed and the token
file is not updated, contradicting the claim that every expired refreshable
session token is refreshed and persisted. -/
theorem C5_counterexample :
    cGmailAuthCached.service_cache = some cService ∧
    cFsTokens cGmailAuthCached.tokens_path = some (.tokens cTokenInfo) ∧
    cTokenInfo.refresh_token = some "refresh0" ∧
    GmailAuth.get_service cGmailAuthCached cFsTokens true (.ok "newTok")
      = .ok (cService, cGmailAuthCached, cFsTokens) := by
  refine ⟨rfl, by decide, rfl, rfl⟩

/-- C5 as amended: provided no service client is cached on the broker (the
routers reset the cache whenever they repoint the broker at a session token
file), get_service and CalendarAuth.service refresh an expired token that
has a refresh token and persist the new access token in place, return the
stored material unchanged when the token is not expired, and fail with the
not-authenticated error when no token file exists. -/
theorem C5_ensure_valid_contract :
    (∀ (auth : GmailAuth) (fs : FS) (expired : Bool) (ro : Except String String),
       auth.service_cache = none → fs auth.tokens_path = none →
       auth.get_service fs expired ro
         = .error "Not authenticated – run setup_oauth/complete_oauth first.") ∧
    (∀ (auth : GmailAuth) (fs : FS) (info : TokenInfo) (r newTok : String),
       auth.service_cache = none → fs auth.tokens_path = some (.tokens info) →
       info.refresh_token = some r →
       auth.get_service fs true (.ok newTok)
         = .ok (⟨"gmail", "v1", { info with token := newTok }⟩,
                { auth with service_cache := some ⟨"gmail", "v1", { info with token := newTok }⟩ },
                fs.write auth.tokens_path (.tokens { info with token := newTok }))) ∧
    (∀ (auth : GmailAuth) (fs : FS) (info : TokenInfo) (ro : Except String String),
       auth.service_cache = none → fs auth.tokens_path = some (.tokens info) →
       auth.get_service fs false ro
         = .ok (⟨"gmail", "v1", info⟩,
                { auth with service_cache := some ⟨"gmail", "v1", info⟩ }, fs)) ∧
    (∀ (auth : CalendarAuth) (fs : FS) (expired : Bool) (ro : Except String String),
       auth.service_cache = none → fs auth.tokens_path = none →
       auth.service fs expired ro = .error "Not authenticated – run setup_oauth first.") ∧
    (∀ (auth : CalendarAuth) (fs : FS) (info : TokenInfo) (r newTok : String),
       auth.service_cache = none → fs auth.tokens_path = some (.tokens info) →
       info.refresh_token = some r →
       auth.service fs true (.ok newTok)
         = .ok (⟨"calendar", "v3", { info with token := newTok }⟩,
                { auth with service_cache := some ⟨"calendar", "v3", { info with token := newTok }⟩ },
                fs.write auth.tokens_path (.tokens { info with token := newTok }))) ∧
    (∀ (auth : CalendarAuth) (fs : FS) (info : TokenInfo) (ro : Except String String),
       auth.service_cache = none → fs auth.tokens_path = some (.tokens info) →
       auth.service fs false ro
         = .ok (⟨"calendar", "v3", info⟩,
                { auth with service_cache := some ⟨"calendar", "v3", info⟩ }, fs)) := by
  refine ⟨?_, ?_, ?_, ?_, ?_, ?_⟩
  · intro auth fs expired ro hc hf
    simp [GmailAuth.get_service, hc, hf]
  · intro auth fs info r newTok hc hf hr
    simp [GmailAuth.get_service, hc, hf, hr]
  · intro auth fs info ro hc hf
    simp [GmailAuth.get_service, hc, hf]
  · intro auth fs expired ro hc hf
    simp [CalendarAuth.service, hc, hf]
  · intro auth fs info r newTok hc hf hr
    simp [CalendarAuth.service, hc, hf, hr]
  · intro auth fs info ro hc hf
    simp [CalendarAuth.service, hc, hf]

/-- C5 witness: the amended contract applied to the concrete fixtures. -/
theorem C5_ensure_valid_witness :
    GmailAuth.get_service cGmailAuth emptyFS true (.ok "x")
      = .error "Not authenticated – run setup_oauth/complete_oauth first." ∧
    GmailAuth.get_service cGmailAuth cFsTokens true (.ok "newTok")
      = .ok (⟨"gmail", "v1", { cTokenInfo with token := "newTok" }⟩,
             { cGmailAuth with service_cache := some ⟨"gmail", "v1", { cTokenInfo with token := "newTok" }⟩ },
             cFsTokens.write cGmailAuth.tokens_path (.tokens { cTokenInfo with token := "newTok" })) ∧
    GmailAuth.get_service cGmailAuth cFsTokens false (.ok "x")
      = .ok (⟨"gmail", "v1", cTokenInfo⟩,
             { cGmailAuth with service_cache := some ⟨"gmail", "v1", cTokenInfo⟩ }, cFsTokens) :=
  ⟨C5_ensure_valid_contract.1 cGmailAuth emptyFS true (.ok "x") rfl rfl,
   C5_ensure_valid_contract.2.1 cGmailAuth cFsTokens cTokenInfo "refresh0" "newTok" rfl (by decide) rfl,
   C5_ensure_valid_contract.2.2.1 cGmailAuth cFsTokens cTokenInfo (.ok "x") rfl (by decide)⟩

/-- C4: complete_authorization (gmail_complete_oauth wrapping
exchange_code_for_token): a successful exchange persists the token material
into the session token file; a failed exchange returns a structured error
payload without touching the filesystem; a call while the in-memory flow
object is absent yields the distinct flow-not-initialised error, again
without touching the filesystem; that error text is exactly what the REST
callback caller matches on, making it restart begin_authorization
(setup_oauth) and retry. -/
theorem C4_complete_authorization_contract :
    (∀ (auth : GmailAuth) (fs : FS) (f : OAuthFlow) (info : TokenInfo) (code : String),
       auth.flow = some f →
       gmail_complete_oauth auth fs (.ok info) code
         = (⟨true, ""⟩, fs.write auth.tokens_path (.tokens info))) ∧
    (∀ (auth : GmailAuth) (fs : FS) (f : OAuthFlow) (e code : String),
       auth.flow = some f →
       gmail_complete_oauth auth fs (.error e) code = (⟨false, e⟩, fs)) ∧
    (∀ (auth : GmailAuth) (fs : FS) (fo : Except String TokenInfo) (code : String),
       auth.flow = none →
       gmail_complete_oauth auth fs fo code
         = (⟨false, "OAuth flow not initialised. Call get_oauth_url first."⟩, fs)) ∧
    strContains (pyLower "OAuth flow not initialised. Call get_oauth_url first.")
      "flow not initialised" = true ∧
    (∀ (env : RestEnv) (store : GmailStore) (sid code : String),
       (store sid).gmail_authenticated = false →
       env.complete1 = ⟨false, "OAuth flow not initialised. Call get_oauth_url first."⟩ →
       (handle_oauth env store sid code).trace
         = [⟨"complete_oauth", false⟩, ⟨"setup_oauth", false⟩, ⟨"complete_oauth", false⟩]) := by
  refine ⟨?_, ?_, ?_, by decide, ?_⟩
  · intro auth fs f info code h
    simp [gmail_complete_oauth, GmailAuth.exchange_code_for_token, h]
  · intro auth fs f e code h
    simp [gmail_complete_oauth, GmailAuth.exchange_code_for_token, h]
  · intro auth fs fo code h
    simp [gmail_complete_oauth, GmailAuth.exchange_code_for_token, h]
  · intro env store sid code hagain h1
    have hsc : strContains (pyLower "OAuth flow not initialised. Call get_oauth_url first.")
        "flow not initialised" = true := by decide
    by_cases h2 : env.complete2.success
    · simp [handle_oauth, hagain, h1, h2, hsc]
    · simp [handle_oauth, hagain, h1, h2, hsc]

/-- C4 witness: the contract applied to the concrete fixtures, including the
REST callback restarting setup after the lost-flow error. -/
theorem C4_complete_authorization_witness :
    gmail_complete_oauth cGmailAuthFlow cFsSecrets (.ok cTokenInfo) "4/x"
      = (⟨true, ""⟩, cFsSecrets.write "tok.json" (.tokens cTokenInfo)) ∧
    gmail_complete_oauth cGmailAuthFlow cFsSecrets (.error "invalid_grant") "4/x"
      = (⟨false, "invalid_grant"⟩, cFsSecrets) ∧
    gmail_complete_oauth cGmailAuth cFsSecrets (.ok cTokenInfo) "4/x"
      = (⟨false, "OAuth flow not initialised. Call get_oauth_url first."⟩, cFsSecrets) ∧
    (handle_oauth cRestFlowLostEnv cFreshStore "s1" "4/x").trace
      = [⟨"complete_oauth", false⟩, ⟨"setup_oauth", false⟩, ⟨"complete_oauth", false⟩] :=
  ⟨C4_complete_authorization_contract.1 cGmailAuthFlow cFsSecrets cFlow cTokenInfo "4/x" rfl,
   C4_complete_authorization_contract.2.1 cGmailAuthFlow cFsSecrets cFlow "invalid_grant" "4/x" rfl,
   C4_complete_authorization_contract.2.2.1 cGmailAuth cFsSecrets (.ok cTokenInfo) "4/x" rfl,
   C4_complete_authorization_contract.2.2.2.2 cRestFlowLostEnv cFreshStore "s1" "4/x" rfl rfl⟩

/-- Helper: the retry loop always returns normally (gmail record). -/
theorem toolRetryLoop_ok (env : InvokeEnv) (tc : Bool) (tp : Option String)
    (ctx : SessionCtx) (auth : GmailAuth) (fs : FS) :
    ∃ out, toolRetryLoop env tc tp ctx auth fs = .ok out := by
  unfold toolRetryLoop
  cases h0 : env.attempts 0 with
  | ok r => exact ⟨_, rfl⟩
  | error e0 =>
      cases h1 : env.attempts 1 with
      | ok r => exact ⟨_, rfl⟩
      | error e1 => exact ⟨_, rfl⟩

/-- Helper: the retry loop always returns normally (calendar record). -/
theorem calToolRetryLoop_ok (env : InvokeEnv) (tc : Bool) (tp : Option String)
    (ctx : SessionCtx) (auth : CalendarAuth) (fs : FS) :
    ∃ out, calToolRetryLoop env tc tp ctx auth fs = .ok out := by
  unfold calToolRetryLoop
  cases h0 : env.attempts 0 with
  | ok r => exact ⟨_, rfl⟩
  | error e0 =>
      cases h1 : env.attempts 1 with
      | ok r => exact ⟨_, rfl⟩
      | error e1 => exact ⟨_, rfl⟩

/-- Helper: on two consecutive raised attempts the gmail loop returns the
structured failure payload. -/
theorem toolRetryLoop_double_fail (env : InvokeEnv) (tc : Bool) (tp : Option String)
    (ctx : SessionCtx) (auth : GmailAuth) (fs : FS) (e0 e1 : String)
    (h0 : env.attempts 0 = .error e0) (h1 : env.attempts 1 = .error e1) :
    toolRetryLoop env tc tp ctx auth fs
      = .ok ⟨failure_json e1, ctx, auth, cleanupTemp tc tp fs, 2, [500]⟩ := by
  unfold toolRetryLoop
  rw [h0, h1]

/-- Helper: on two consecutive raised attempts the calendar loop returns the
structured failure payload. -/
theorem calToolRetryLoop_double_fail (env : InvokeEnv) (tc : Bool) (tp : Option String)
    (ctx : SessionCtx) (auth : CalendarAuth) (fs : FS) (e0 e1 : String)
    (h0 : env.attempts 0 = .error e0) (h1 : env.attempts 1 = .error e1) :
    calToolRetryLoop env tc tp ctx auth fs
      = .ok ⟨failure_json e1, ctx, auth, cleanupTemp tc tp fs, 2, [500]⟩ := by
  unfold calToolRetryLoop
  rw [h0, h1]

/-- Helper: a raise followed by a normal return makes the gmail loop return
the normalised result of the second attempt after one fixed sleep. -/
theorem toolRetryLoop_fail_ok (env : InvokeEnv) (tc : Bool) (tp : Option String)
    (ctx : SessionCtx) (auth : GmailAuth) (fs : FS) (e0 : String) (r : PyVal)
    (h0 : env.attempts 0 = .error e0) (h1 : env.attempts 1 = .ok r) :
    toolRetryLoop env tc tp ctx auth fs
      = .ok ⟨unwrap_result r, ctx, auth, cleanupTemp tc tp fs, 2, [500]⟩ := by
  unfold toolRetryLoop
  rw [h0, h1]

/-- Helper: a raise followed by a normal return makes the calendar loop
return the normalised result of the second attempt after one fixed sleep. -/
theorem calToolRetryLoop_fail_ok (env : InvokeEnv) (tc : Bool) (tp : Option String)
    (ctx : SessionCtx) (auth : CalendarAuth) (fs : FS) (e0 : String) (r : PyVal)
    (h0 : env.attempts 0 = .error e0) (h1 : env.attempts 1 = .ok r) :
    calToolRetryLoop env tc tp ctx auth fs
      = .ok ⟨unwrap_result r, ctx, auth, cleanupTemp tc tp fs, 2, [500]⟩ := by
  unfold calToolRetryLoop
  rw [h0, h1]

/-- Helper: the gmail loop makes at most two remote attempts. -/
theorem toolRetryLoop_calls_le (env : InvokeEnv) (tc : Bool) (tp : Option String)
    (ctx : SessionCtx) (auth : GmailAuth) (fs : FS) :
    ∃ out, toolRetryLoop env tc tp ctx auth fs = .ok out ∧ out.calls ≤ 2 := by
  unfold toolRetryLoop
  cases h0 : env.attempts 0 with
  | ok r => exact ⟨_, rfl, by norm_num⟩
  | error e0 =>
      cases h1 : env.attempts 1 with
      | ok r => exact ⟨_, rfl, by norm_num⟩
      | error e1 => exact ⟨_, rfl, by norm_num⟩

/-- Helper: the calendar loop makes at most two remote attempts. -/
theorem calToolRetryLoop_calls_le (env : InvokeEnv) (tc : Bool) (tp : Option String)
    (ctx : SessionCtx) (auth : CalendarAuth) (fs : FS) :
    ∃ out, calToolRetryLoop env tc tp ctx auth fs = .ok out ∧ out.calls ≤ 2 := by
  unfold calToolRetryLoop
  cases h0 : env.attempts 0 with
  | ok r => exact ⟨_, rfl, by norm_num⟩
  | error e0 =>
      cases h1 : env.attempts 1 with
      | ok r => exact ⟨_, rfl, by norm_num⟩
      | error e1 => exact ⟨_, rfl, by norm_num⟩

/-- C2 counterexample: both remote attempts raise exceptions whose str() is
empty (as with Exception() carrying no message); the wrapper then returns
the failure payload whose error field is the empty string, refuting the
claimed non-emptiness. The first conjuncts confirm both attempts raise. -/
theorem C2_counterexample :
    cEnvFailEmpty.attempts 0 = .error "" ∧
    cEnvFailEmpty.attempts 1 = .error "" ∧
    (run_gmail_tool "send_email" [] cEnvFailEmpty cCtxEmpty cGmailAuth emptyFS).toOption.map
        InvokeOut.output
      = some "\x7b\"success\": false, \"error\": \"\"\x7d" :=
  ⟨rfl, rfl, rfl⟩

/-- C2 as amended: the wrappers never propagate an exception to the caller;
when both the initial attempt and the single retry raise, they return the
serialization of the payload with success false and error the str() of the
second exception — which is non-empty whenever that exception message is
non-empty. -/
theorem C2_failure_payload_no_raise :
    (∀ (fn : String) (args : List (String × String)) (env : InvokeEnv)
       (ctx : SessionCtx) (auth : GmailAuth) (fs : FS),
       ∃ out, run_gmail_tool fn args env ctx auth fs = .ok out) ∧
    (∀ (fn : String) (args : List (String × String)) (env : InvokeEnv)
       (ctx : SessionCtx) (auth : CalendarAuth) (fs : FS),
       ∃ out, run_cal_tool fn args env ctx auth fs = .ok out) ∧
    (∀ (fn : String) (args : List (String × String)) (env : InvokeEnv)
       (ctx : SessionCtx) (auth : GmailAuth) (fs : FS) (e0 e1 : String),
       env.attempts 0 = .error e0 → env.attempts 1 = .error e1 →
       ∃ out, run_gmail_tool fn args env ctx auth fs = .ok out ∧
         out.output = failure_json e1) ∧
    (∀ (fn : String) (args : List (String × String)) (env : InvokeEnv)
       (ctx : SessionCtx) (auth : CalendarAuth) (fs : FS) (e0 e1 : String),
       env.attempts 0 = .error e0 → env.attempts 1 = .error e1 →
       ∃ out, run_cal_tool fn args env ctx auth fs = .ok out ∧
         out.output = failure_json e1) ∧
    (∀ e : String, e ≠ "" → jsonEscape e ≠ "") := by
  refine ⟨?_, ?_, ?_, ?_, ?_⟩
  · intro fn args env ctx auth fs
    exact toolRetryLoop_ok env _ _ _ _ _
  · intro fn args env ctx auth fs
    exact calToolRetryLoop_ok env _ _ _ _ _
  · intro fn args env ctx auth fs e0 e1 h0 h1
    exact ⟨_, toolRetryLoop_double_fail env _ _ _ _ _ e0 e1 h0 h1, rfl⟩
  · intro fn args env ctx auth fs e0 e1 h0 h1
    exact ⟨_, calToolRetryLoop_double_fail env _ _ _ _ _ e0 e1 h0 h1, rfl⟩
  · intro e he hjoin
    cases hdata : e.data with
    | nil => exact he (by cases e; simp_all)
    | cons c cs =>
        have hchar : (jsonEscapeChar c).data ≠ [] := by
          unfold jsonEscapeChar
          split
          · decide
          · split
            · decide
            · simp [String.singleton]
        have hdat : (jsonEscape e).data = (jsonEscapeChar c).data ++ jsonEscapeList cs := by
          simp [jsonEscape, hdata, jsonEscapeList]
        rw [hjoin] at hdat
        have : ([] : List Char) = (jsonEscapeChar c).data ++ jsonEscapeList cs := hdat
        exact hchar (List.append_eq_nil.mp this.symm).1

/-- C2 witness: the amended contract applied to an environment with two
nonempty raised messages, and the non-emptiness conjunct at a concrete
message. -/
theorem C2_failure_payload_witness :
    (∃ out, run_gmail_tool "send_email" [] cEnvFailTwice cCtxEmpty cGmailAuth emptyFS = .ok out ∧
       out.output = failure_json "timeout two") ∧
    jsonEscape "timeout two" ≠ "" :=
  ⟨C2_failure_payload_no_raise.2.2.1 "send_email" [] cEnvFailTwice cCtxEmpty cGmailAuth emptyFS
     "timeout one" "timeout two" rfl rfl,
   C2_failure_payload_no_raise.2.2.2.2 "timeout two" (by decide)⟩

/-- C3: when the first remote attempt raises and the second returns, the
wrappers return the normalised result of the second attempt, having made
exactly two calls with one fixed 0.5 second sleep (not exponential) before
the single retry; and no invocation ever makes more than two remote calls. -/
theorem C3_single_retry_policy :
    (∀ (fn : String) (args : List (String × String)) (env : InvokeEnv)
       (ctx : SessionCtx) (auth : GmailAuth) (fs : FS) (e0 : String) (r : PyVal),
       env.attempts 0 = .error e0 → env.attempts 1 = .ok r →
       ∃ out, run_gmail_tool fn args env ctx auth fs = .ok out ∧
         out.output = unwrap_result r ∧ out.calls = 2 ∧ out.sleeps = [500]) ∧
    (∀ (fn : String) (args : List (String × String)) (env : InvokeEnv)
       (ctx : SessionCtx) (auth : CalendarAuth) (fs : FS) (e0 : String) (r : PyVal),
       env.attempts 0 = .error e0 → env.attempts 1 = .ok r →
       ∃ out, run_cal_tool fn args env ctx auth fs = .ok out ∧
         out.output = unwrap_result r ∧ out.calls = 2 ∧ out.sleeps = [500]) ∧
    (∀ (fn : String) (args : List (String × String)) (env : InvokeEnv)
       (ctx : SessionCtx) (auth : GmailAuth) (fs : FS),
       ∃ out, run_gmail_tool fn args env ctx auth fs = .ok out ∧ out.calls ≤ 2) ∧
    (∀ (fn : String) (args : List (String × String)) (env : InvokeEnv)
       (ctx : SessionCtx) (auth : CalendarAuth) (fs : FS),
       ∃ out, run_cal_tool fn args env ctx auth fs = .ok out ∧ out.calls ≤ 2) := by
  refine ⟨?_, ?_, ?_, ?_⟩
  · intro fn args env ctx auth fs e0 r h0 h1
    exact ⟨_, toolRetryLoop_fail_ok env _ _ _ _ _ e0 r h0 h1, rfl, rfl, rfl⟩
  · intro fn args env ctx auth fs e0 r h0 h1
    exact ⟨_, calToolRetryLoop_fail_ok env _ _ _ _ _ e0 r h0 h1, rfl, rfl, rfl⟩
  · intro fn args env ctx auth fs
    exact toolRetryLoop_calls_le env _ _ _ _ _
  · intro fn args env ctx auth fs
    exact calToolRetryLoop_calls_le env _ _ _ _ _

/-- C3 witness: the single-retry contract applied to an environment that
raises once and then returns a text block. -/
theorem C3_single_retry_witness :
    ∃ out, run_gmail_tool "list_emails" [] cEnvFailOnce cCtxEmpty cGmailAuth emptyFS = .ok out ∧
      out.output = unwrap_result (.textBlock "ok-result") ∧ out.calls = 2 ∧ out.sleeps = [500] :=
  C3_single_retry_policy.1 "list_emails" [] cEnvFailOnce cCtxEmpty cGmailAuth emptyFS
    "boom" (.textBlock "ok-result") rfl rfl

/-- C7: a session in the UNAUTHENTICATED state (fresh: not authenticated,
not awaiting a code) that receives user text makes the router dispatch
setup_oauth (begin_authorization), transition the session to AWAITING_CODE
(awaiting_auth_code true), and reply with a message containing the
authorization URL — in both the Gmail and the Calendar router. -/
theorem C7_unauthenticated_starts_auth :
    (∀ (env : GmailEnv) (sid sender u : String),
       env.setup.success = true → env.setup.auth_url = u →
       ((gmailHandle env sid GmailSession.fresh ⟨sender, ["help"], false⟩).data.awaiting_auth_code = true ∧
        (⟨"setup_oauth", false⟩ : Dispatch) ∈ (gmailHandle env sid GmailSession.fresh ⟨sender, ["help"], false⟩).trace ∧
        ∃ pre post, (gmailHandle env sid GmailSession.fresh ⟨sender, ["help"], false⟩).replies = [pre ++ u ++ post])) ∧
    (∀ (env : CalEnv) (sid sender u : String),
       env.setup.success = true → env.setup.auth_url = u →
       ((calHandle env sid CalSession.fresh ⟨sender, ["help"], false⟩).data.awaiting_auth_code = true ∧
        (⟨"setup_oauth", false⟩ : Dispatch) ∈ (calHandle env sid CalSession.fresh ⟨sender, ["help"], false⟩).trace ∧
        ∃ pre post, (calHandle env sid CalSession.fresh ⟨sender, ["help"], false⟩).replies = [pre ++ u ++ post])) := by
  constructor
  · intro env sid sender u h1 h2
    subst h2
    refine ⟨?_, ?_, ?_⟩
    · simp [gmailHandle, gmailAuthCheck, gmailUnauthStep, GmailSession.fresh, h1]
    · simp [gmailHandle, gmailAuthCheck, gmailUnauthStep, GmailSession.fresh, h1]
    · by_cases hs : strContains env.setup.auth_url "state="
      · exact ⟨gmailAuthLinkPre, ")",
          by simp [gmailHandle, gmailAuthCheck, gmailUnauthStep, GmailSession.fresh, h1, hs,
            gmailAuthLinkReply]⟩
      · refine ⟨gmailAuthLinkPre,
          (if strContains env.setup.auth_url "?" then "&" else "?") ++ ("state=" ++ (sid ++ ")")), ?_⟩
        simp [gmailHandle, gmailAuthCheck, gmailUnauthStep, GmailSession.fresh, h1, hs,
          gmailAuthLinkReply, String.append_assoc]
  · intro env sid sender u h1 h2
    subst h2
    refine ⟨?_, ?_, ?_⟩
    · simp [calHandle, calAuthCheck, CalSession.fresh, h1]
    · simp [calHandle, calAuthCheck, CalSession.fresh, h1]
    · exact ⟨calAuthLinkPre, calAuthLinkSuf,
        by simp [calHandle, calAuthCheck, CalSession.fresh, h1, calAuthLinkReply]⟩

/-- C7 witness: the scenario applied to the concrete environments whose
setup_oauth succeeds with a fixed URL. -/
theorem C7_unauthenticated_witness :
    ((gmailHandle cSetupOkEnv "s1" GmailSession.fresh ⟨"agent1", ["help"], false⟩).data.awaiting_auth_code = true ∧
     (⟨"setup_oauth", false⟩ : Dispatch) ∈ (gmailHandle cSetupOkEnv "s1" GmailSession.fresh ⟨"agent1", ["help"], false⟩).trace ∧
     ∃ pre post, (gmailHandle cSetupOkEnv "s1" GmailSession.fresh ⟨"agent1", ["help"], false⟩).replies
       = [pre ++ "https://auth.example/a1" ++ post]) ∧
    ((calHandle cCalSetupOkEnv "s1" CalSession.fresh ⟨"agent1", ["help"], false⟩).data.awaiting_auth_code = true ∧
     (⟨"setup_oauth", false⟩ : Dispatch) ∈ (calHandle cCalSetupOkEnv "s1" CalSession.fresh ⟨"agent1", ["help"], false⟩).trace ∧
     ∃ pre post, (calHandle cCalSetupOkEnv "s1" CalSession.fresh ⟨"agent1", ["help"], false⟩).replies
       = [pre ++ "https://auth.example/a1" ++ post]) :=
  ⟨C7_unauthenticated_starts_auth.1 cSetupOkEnv "s1" "agent1" "https://auth.example/a1" rfl rfl,
   C7_unauthenticated_starts_auth.2 cCalSetupOkEnv "s1" "agent1" "https://auth.example/a1" rfl rfl⟩

set_option maxRecDepth 4000 in
/-- C8 counterexample: a Gmail session in AWAITING_CODE receives a
code-shaped text and complete_oauth fails; the router then CLEARS
awaiting_auth_code (line 496 pops the key so a new flow can start) instead
of remaining in AWAITING_CODE as the claim states. -/
theorem C8_counterexample :
    cAwaitSession.awaiting_auth_code = true ∧
    pyStartsWith "4/badcode" "4/" = true ∧
    cCompleteFailEnv.complete.success = false ∧
    (⟨"complete_oauth", false⟩ : Dispatch) ∈ (gmailHandle cCompleteFailEnv "s1" cAwaitSession ⟨"u", ["4/badcode"], false⟩).trace ∧
    (gmailHandle cCompleteFailEnv "s1" cAwaitSession ⟨"u", ["4/badcode"], false⟩).data.awaiting_auth_code = false := by
  refine ⟨rfl, rfl, rfl, by decide, by decide⟩

/-- C8 as amended: in the Gmail router a code-shaped text while awaiting
dispatches complete_oauth; on success the session becomes AUTHENTICATED; on
failure the session leaves AWAITING_CODE (awaiting_auth_code is cleared so a
new flow can start) and the error is reported to the user. The Calendar
router does not process pasted codes at all: while awaiting it dispatches
nothing and only reminds the user, staying in AWAITING_CODE. -/
theorem C8_code_exchange_transitions :
    (∀ (env : GmailEnv) (sid sender code : String) (rest : List String) (data : GmailSession),
       data.gmail_authenticated = false → data.awaiting_auth_code = true →
       env.flow_present = true → pyStartsWith code "4/" = true →
       env.complete.success = true →
       ((gmailHandle env sid data ⟨sender, code :: rest, false⟩).data.gmail_authenticated = true ∧
        (gmailHandle env sid data ⟨sender, code :: rest, false⟩).data.awaiting_auth_code = false ∧
        (⟨"complete_oauth", false⟩ : Dispatch) ∈ (gmailHandle env sid data ⟨sender, code :: rest, false⟩).trace)) ∧
    (∀ (env : GmailEnv) (sid sender code : String) (rest : List String) (data : GmailSession),
       data.gmail_authenticated = false → data.awaiting_auth_code = true →
       env.flow_present = true → pyStartsWith code "4/" = true →
       env.complete.success = false →
       ((gmailHandle env sid data ⟨sender, code :: rest, false⟩).data.gmail_authenticated = false ∧
        (gmailHandle env sid data ⟨sender, code :: rest, false⟩).data.awaiting_auth_code = false ∧
        (gmailHandle env sid data ⟨sender, code :: rest, false⟩).replies
          = ["❌ Authentication failed: " ++ env.complete.error ++ ". Please try again."] ∧
        (⟨"complete_oauth", false⟩ : Dispatch) ∈ (gmailHandle env sid data ⟨sender, code :: rest, false⟩).trace)) ∧
    (∀ (env : CalEnv) (sid sender : String) (texts : List String) (data : CalSession),
       data.cal_authenticated = false → data.awaiting_auth_code = true → texts ≠ [] →
       ((calHandle env sid data ⟨sender, texts, false⟩).trace = [] ∧
        (calHandle env sid data ⟨sender, texts, false⟩).data.awaiting_auth_code = true ∧
        (calHandle env sid data ⟨sender, texts, false⟩).replies = [calWaitingReminder])) := by
  refine ⟨?_, ?_, ?_⟩
  · intro env sid sender code rest data h1 h2 h3 h4 h5
    refine ⟨?_, ?_, ?_⟩ <;>
      simp [gmailHandle, gmailAuthCheck, gmailUnauthStep, h1, h2, h3, h4, h5]
  · intro env sid sender code rest data h1 h2 h3 h4 h5
    refine ⟨?_, ?_, ?_, ?_⟩ <;>
      simp [gmailHandle, gmailAuthCheck, gmailUnauthStep, h1, h2, h3, h4, h5]
  · intro env sid sender texts data h1 h2 h3
    refine ⟨?_, ?_, ?_⟩ <;>
      simp [calHandle, calAuthCheck, h1, h2, h3]

/-- C8 witness: the amended transitions applied to the concrete awaiting
sessions with a successful exchange environment. -/
theorem C8_code_exchange_witness :
    ((gmailHandle cSetupOkEnv "s1" cAwaitSession ⟨"u", ["4/goodcode"], false⟩).data.gmail_authenticated = true ∧
     (gmailHandle cSetupOkEnv "s1" cAwaitSession ⟨"u", ["4/goodcode"], false⟩).data.awaiting_auth_code = false ∧
     (⟨"complete_oauth", false⟩ : Dispatch) ∈ (gmailHandle cSetupOkEnv "s1" cAwaitSession ⟨"u", ["4/goodcode"], false⟩).trace) ∧
    ((calHandle cCalSetupOkEnv "s1" cCalAwaitSession ⟨"u", ["4/goodcode"], false⟩).trace = [] ∧
     (calHandle cCalSetupOkEnv "s1" cCalAwaitSession ⟨"u", ["4/goodcode"], false⟩).data.awaiting_auth_code = true ∧
     (calHandle cCalSetupOkEnv "s1" cCalAwaitSession ⟨"u", ["4/goodcode"], false⟩).replies = [calWaitingReminder]) :=
  ⟨C8_code_exchange_transitions.1 cSetupOkEnv "s1" "u" "4/goodcode" [] cAwaitSession
     rfl rfl rfl (by decide) rfl,
   C8_code_exchange_transitions.2.2 cCalSetupOkEnv "s1" "u" ["4/goodcode"] cCalAwaitSession
     rfl rfl (by decide)⟩

/-- Helper: every dispatch recorded by the Gmail auth-revalidation step is a
check_auth_status call. -/
theorem gmailAuthCheck_trace_tool (env : GmailEnv) (data : GmailSession) (c : Dispatch)
    (hc : c ∈ (gmailAuthCheck env data).2) : c.tool = "check_auth_status" := by
  unfold gmailAuthCheck at hc
  split at hc
  · split at hc <;> simp_all
  · simp at hc

/-- Helper: every dispatch the Gmail unauthenticated branch adds to the
trace is a complete_oauth or setup_oauth call. -/
theorem gmailUnauthStep_trace_tools (env : GmailEnv) (sid : String) (data : GmailSession)
    (inbound : List String) (trace0 : List Dispatch) (c : Dispatch)
    (hc : c ∈ (gmailUnauthStep env sid data inbound trace0).trace) :
    c ∈ trace0 ∨ c.tool = "complete_oauth" ∨ c.tool = "setup_oauth" := by
  simp only [gmailUnauthStep] at hc
  repeat' split at hc
  all_goals try exact Or.inl hc
  all_goals try rcases List.mem_append.mp hc with h | h
  all_goals try exact Or.inl h
  all_goals simp_all

/-- Helper: every dispatch of a Gmail router step is an auth-workflow tool
call or was made while the session flag was true. -/
theorem gmailHandle_trace_tools (env : GmailEnv) (sid : String) (data : GmailSession)
    (msg : Inbound) (c : Dispatch) (hc : c ∈ (gmailHandle env sid data msg).trace) :
    c.tool ∈ auth_flow_tools ∨ c.auth_flag = true := by
  simp only [gmailHandle] at hc
  repeat' split at hc
  all_goals first
    | exact absurd hc (List.not_mem_nil c)
    | exact (gmailUnauthStep_trace_tools _ _ _ _ _ _ hc).elim
        (fun h => Or.inl (by simp [auth_flow_tools, gmailAuthCheck_trace_tool _ _ _ h]))
        (fun h => h.elim (fun h2 => Or.inl (by simp [auth_flow_tools, h2]))
                         (fun h2 => Or.inl (by simp [auth_flow_tools, h2])))
    | exact (List.mem_append.mp hc).elim
        (fun h => Or.inl (by simp [auth_flow_tools, gmailAuthCheck_trace_tool _ _ _ h]))
        (fun h => by
          right
          simp only [List.mem_map] at h
          obtain ⟨n, hn, rfl⟩ := h
          simp_all)

/-- Helper: every dispatch recorded by the Calendar auth-revalidation step
is a check_auth_status call. -/
theorem calAuthCheck_trace_tool (env : CalEnv) (data : CalSession) (c : Dispatch)
    (hc : c ∈ (calAuthCheck env data).2) : c.tool = "check_auth_status" := by
  unfold calAuthCheck at hc
  split at hc
  · split at hc <;> simp_all
  · simp at hc

/-- Helper: every dispatch of a Calendar router step is an auth-workflow
tool call or was made while the session flag was true. -/
theorem calHandle_trace_tools (env : CalEnv) (sid : String) (data : CalSession)
    (msg : Inbound) (c : Dispatch) (hc : c ∈ (calHandle env sid data msg).trace) :
    c.tool ∈ auth_flow_tools ∨ c.auth_flag = true := by
  simp only [calHandle] at hc
  repeat' split at hc
  all_goals first
    | exact absurd hc (List.not_mem_nil c)
    | (have h2 := calAuthCheck_trace_tool _ _ _ hc
       exact Or.inl (by simp [auth_flow_tools, h2]))
    | (rcases List.mem_append.mp hc with h | h
       · have h2 := calAuthCheck_trace_tool _ _ _ h
         exact Or.inl (by simp [auth_flow_tools, h2])
       · first
         | (simp only [List.mem_singleton] at h
            subst h
            exact Or.inl (by simp [auth_flow_tools]))
         | (right
            simp only [List.mem_map] at h
            obtain ⟨n, hn, rfl⟩ := h
            simp_all))

set_option maxRecDepth 4000 in
/-- C1 counterexample: (a) an unauthenticated fresh session receiving the
text help makes the router dispatch the Tool Call setup_oauth while the
session authentication flag is false, refuting the universal no-dispatch
claim; (b) with the stored token expired (expired clock check true) and no
refresh token present, the credentialed tool send_email still executes the
remote API call on the stale token, refuting the claim that credentialed
calls only run on unexpired token material. -/
theorem C1_counterexample :
    GmailSession.fresh.gmail_authenticated = false ∧
    (gmailHandle cSetupOkEnv "s1" GmailSession.fresh ⟨"agent1", ["help"], false⟩).trace
      = [⟨"setup_oauth", false⟩] ∧
    cTokenInfoNoRefresh.refresh_token = none ∧
    (send_email cGmailAuth cFsTokensNoRefresh true (.ok "unusedRefresh") (.ok "msgid1")
        "rcpt" "subj" "body").api_called = true ∧
    (send_email cGmailAuth cFsTokensNoRefresh true (.ok "unusedRefresh") (.ok "msgid1")
        "rcpt" "subj" "body").auth.service_cache = some ⟨"gmail", "v1", cTokenInfoNoRefresh⟩ := by
  refine ⟨rfl, by decide, rfl, by decide, by decide⟩

/-- C1 as amended: every Tool Call either is an authentication-workflow call
(setup_oauth, complete_oauth, check_auth_status — exactly the calls that
establish or probe authentication) or is dispatched while the owning
session authentication flag is true, in both routers; and at the server
layer a credentialed tool whose broker has no cached client and no token
material on disk never executes its remote API call: it returns a failure
payload from the AuthenticationRequired error instead. -/
theorem C1_credentialed_dispatch_guarded :
    (∀ (env : GmailEnv) (sid : String) (data : GmailSession) (msg : Inbound) (c : Dispatch),
       c ∈ (gmailHandle env sid data msg).trace → c.tool ∉ auth_flow_tools →
       c.auth_flag = true) ∧
    (∀ (env : CalEnv) (sid : String) (data : CalSession) (msg : Inbound) (c : Dispatch),
       c ∈ (calHandle env sid data msg).trace → c.tool ∉ auth_flow_tools →
       c.auth_flag = true) ∧
    (∀ (auth : GmailAuth) (fs : FS) (expired : Bool) (ro api : Except String String)
       (rcpt subj body : String),
       auth.service_cache = none → fs auth.tokens_path = none →
       ((send_email auth fs expired ro api rcpt subj body).api_called = false ∧
        (send_email auth fs expired ro api rcpt subj body).payload.success = false)) := by
  refine ⟨?_, ?_, ?_⟩
  · intro env sid data msg c hc hn
    rcases gmailHandle_trace_tools env sid data msg c hc with h | h
    · exact absurd h hn
    · exact h
  · intro env sid data msg c hc hn
    rcases calHandle_trace_tools env sid data msg c hc with h | h
    · exact absurd h hn
    · exact h
  · intro auth fs expired ro api rcpt subj body hc hf
    constructor <;> simp [send_email, GmailAuth.get_service, hc, hf]

set_option maxRecDepth 4000 in
/-- C1 witness: the guarded-dispatch property applied to an authenticated
session whose LLM turn executes send_email, and the no-token-no-call part
applied to the empty filesystem. -/
theorem C1_credentialed_witness :
    (⟨"send_email", true⟩ : Dispatch).auth_flag = true ∧
    ((send_email cGmailAuth emptyFS true (.ok "x") (.ok "y") "rcpt" "subj" "body").api_called = false ∧
     (send_email cGmailAuth emptyFS true (.ok "x") (.ok "y") "rcpt" "subj" "body").payload.success = false) :=
  ⟨C1_credentialed_dispatch_guarded.1 cAuthEnv "s1" cAuthSession ⟨"agent1", ["hi"], false⟩
     ⟨"send_email", true⟩ (by decide) (by decide),
   C1_credentialed_dispatch_guarded.2.2 cGmailAuth emptyFS true (.ok "x") (.ok "y")
     "rcpt" "subj" "body" rfl rfl⟩

/-- Helper: the REST callback ignores a duplicate delivery for an already
authenticated session, replying Already authenticated and leaving the store
untouched with no tool dispatched. -/
theorem handle_oauth_already (env : RestEnv) (store : GmailStore) (sid code : String)
    (h : (store sid).gmail_authenticated = true) :
    handle_oauth env store sid code = ⟨true, "Already authenticated", store, []⟩ := by
  simp [handle_oauth, h]

/-- C9: delivering the same valid code twice through the OAuth callback is
idempotent from the user point of view: after a first successful
complete_authorization the session is authenticated, so the second delivery
is answered with the Already authenticated success response, the stored
session (token material included) is not mutated again, and no tool call is
dispatched. -/
theorem C9_idempotent_second_code :
    ∀ (env env2 : RestEnv) (store : GmailStore) (sid code : String),
      (store sid).gmail_authenticated = false →
      env.complete1.success = true →
      ((handle_oauth env2 (handle_oauth env store sid code).store sid code).resp_success = true ∧
       (handle_oauth env2 (handle_oauth env store sid code).store sid code).resp_message
         = "Already authenticated" ∧
       (handle_oauth env2 (handle_oauth env store sid code).store sid code).store
         = (handle_oauth env store sid code).store ∧
       (handle_oauth env2 (handle_oauth env store sid code).store sid code).trace = []) := by
  intro env env2 store sid code h1 h2
  have hstep : ((handle_oauth env store sid code).store sid).gmail_authenticated = true := by
    simp [handle_oauth, h1, h2, storeSet]
  rw [handle_oauth_already env2 _ sid code hstep]
  exact ⟨rfl, rfl, rfl, rfl⟩

/-- C9 witness: the idempotence applied to a fresh store and a first
delivery that succeeds. -/
theorem C9_idempotent_witness :
    (handle_oauth cRestOkEnv (handle_oauth cRestOkEnv cFreshStore "s1" "4/x").store "s1" "4/x").resp_success = true ∧
    (handle_oauth cRestOkEnv (handle_oauth cRestOkEnv cFreshStore "s1" "4/x").store "s1" "4/x").resp_message
      = "Already authenticated" ∧
    (handle_oauth cRestOkEnv (handle_oauth cRestOkEnv cFreshStore "s1" "4/x").store "s1" "4/x").store
      = (handle_oauth cRestOkEnv cFreshStore "s1" "4/x").store ∧
    (handle_oauth cRestOkEnv (handle_oauth cRestOkEnv cFreshStore "s1" "4/x").store "s1" "4/x").trace = [] :=
  C9_idempotent_second_code cRestOkEnv cRestOkEnv cFreshStore "s1" "4/x" rfl rfl
